import Mathlib

/-!
Verification of the POS checkout frontend (cart store, HTTP request wrapper,
auth token store, checkout page) against its natural-language specification.

Shallow embedding conventions:
* JavaScript numbers are modelled as `Option ℚ`: `some q` is a finite double
  with exact value `q`, `none` stands for any non-finite value (`NaN`,
  `Infinity`, `-Infinity`).  The code under verification only ever tests
  numbers for finiteness / integerhood and does exact arithmetic on small
  currency values, so the rational model is faithful to the algorithmic
  structure; no claim below depends on binary floating-point representation
  error.
* JavaScript runtime values (the `unknown` inputs of the sanitizer, parsed
  JSON bodies) are modelled by the inductive type `JsValue`.
* Platform primitives that are not part of this repository (`Number(...)`
  string/value coercion, `JSON.parse`) are passed in as function parameters
  (`jsNum : JsValue → Option ℚ`, `parseJson : String → Option JsValue`);
  theorems quantify over them or assume only the facts the code relies on
  (e.g. `Number` of a number is the identity).
* `Math.round` rounds half toward +∞, exactly Mathlib's `round` on `ℚ`.
-/

namespace PosSpec

/-- Model of a JavaScript runtime value (the `unknown` type).  `num none`
is a non-finite number (`NaN` / `±Infinity`). -/
inductive JsValue where
  | null : JsValue
  | undefined : JsValue
  | bool : Bool → JsValue
  | num : Option ℚ → JsValue
  | str : String → JsValue
  | arr : List JsValue → JsValue
  | obj : List (String × JsValue) → JsValue

/-- `typeof v === "object" && v !== null` — true exactly for plain objects
and arrays in this model. -/
def objectLike : JsValue → Bool
  | .obj _ => true
  | .arr _ => true
  | _ => false

/-- Nullish test: `v === null || v === undefined`. -/
def isNullish : JsValue → Bool
  | .null => true
  | .undefined => true
  | _ => false

/-- `v === undefined`. -/
def isUndefined : JsValue → Bool
  | .undefined => true
  | _ => false

/-- Property access `v[k]`: a missing property (and any property of a
non-object) reads as `undefined`.  Array index properties are not needed by
the code under verification. -/
def getField : JsValue → String → JsValue
  | .obj fields, k =>
    match fields.find? (fun p => p.1 = k) with
    | some p => p.2
    | none => .undefined
  | _, _ => .undefined

/-- Nullish coalescing `a ?? b`. -/
def nullish (a b : JsValue) : JsValue :=
  if isNullish a then b else a

/-- `typeof v === "string" ? v : ""`. -/
def strOrEmpty : JsValue → String
  | .str s => s
  | _ => ""

/-- `typeof v === "string" ? v : undefined`, as an `Option`. -/
def strOpt : JsValue → Option String
  | .str s => some s
  | _ => none

/-- `Number.EPSILON = 2⁻⁵²`, the nudge used by `roundCurrency`. -/
def jsEpsilon : ℚ := 1 / 2 ^ 52

/-- `roundCurrency` from `useCart` (and its identical local copy in the
checkout page): `Math.round((value + Number.EPSILON) * 100) / 100`. -/
def roundCurrency (value : ℚ) : ℚ :=
  (round ((value + jsEpsilon) * 100) : ℤ) / 100

/-- The rounding step of `parseMoney`: `Math.round(numeric * 100) / 100`
(note: no epsilon nudge here, unlike `roundCurrency`). -/
def jsRound2 (q : ℚ) : ℚ :=
  (round (q * 100) : ℤ) / 100

/-- One cart line (`CartItem` from `useCart`).  Numeric fields are finite by
construction of the model (`ℚ`), mirroring that sanitization only ever
produces finite numbers there. -/
structure CartItem where
  productId : ℚ
  name : String
  quantity : ℚ
  unitPrice : ℚ
  sku : Option String
  taxRate : Option ℚ
deriving DecidableEq, Repr

/-- Derived cart totals (`CartTotals` from `useCart`). -/
structure CartTotals where
  subtotal : ℚ
  tax : ℚ
  total : ℚ
deriving DecidableEq, Repr

/-- `sanitizeCartItem` from `useCart`, parameterised by the platform
`Number(...)` coercion `jsNum`.  Mirrors the source exactly: nullish-coalesce
the alternate field names, coerce, then reject unless `productId` is a
positive integer, `quantity` is finite and strictly positive, and
`unitPrice` is finite; `name` keeps stored text or defaults to `""`, `sku`
is kept only if text, `taxRate` only if it coerces to a finite number and
the raw value is not `undefined`. -/
def sanitizeCartItem (jsNum : JsValue → Option ℚ) (input : JsValue) : Option CartItem :=
  if objectLike input = false then none
  else
    match jsNum (nullish (getField input "productId") (getField input "product_id")) with
    | none => none
    | some productId =>
      if productId.den ≠ 1 ∨ productId ≤ 0 then none
      else
        match jsNum (getField input "quantity") with
        | none => none
        | some quantity =>
          if quantity ≤ 0 then none
          else
            match jsNum (nullish (getField input "unitPrice")
                (nullish (getField input "unit_price") (getField input "price"))) with
            | none => none
            | some unitPrice =>
              some
                { productId := productId
                  name := strOrEmpty (nullish (getField input "name") (getField input "productName"))
                  quantity := quantity
                  unitPrice := unitPrice
                  sku := strOpt (nullish (getField input "sku") (getField input "productSku"))
                  taxRate :=
                    if isUndefined (nullish (getField input "taxRate") (getField input "tax_rate")) = false
                        ∧ (jsNum (nullish (getField input "taxRate") (getField input "tax_rate"))).isSome = true
                    then jsNum (nullish (getField input "taxRate") (getField input "tax_rate"))
                    else none }

/-- The reducer step of `calculateCartTotals` (the arrow function passed to
`items.reduce` in `useCart`). -/
def calcStep (accumulator : CartTotals) (item : CartItem) : CartTotals :=
  { subtotal := roundCurrency (accumulator.subtotal + roundCurrency (item.unitPrice * item.quantity))
    tax := roundCurrency (accumulator.tax +
      roundCurrency (roundCurrency (item.unitPrice * item.quantity) * ((item.taxRate.getD 0) / 100)))
    total := roundCurrency (accumulator.total + roundCurrency (item.unitPrice * item.quantity) +
      roundCurrency (roundCurrency (item.unitPrice * item.quantity) * ((item.taxRate.getD 0) / 100))) }

/-- `calculateCartTotals` from `useCart`: `items.reduce(step, {0,0,0})`. -/
def calculateCartTotals (items : List CartItem) : CartTotals :=
  items.foldl calcStep { subtotal := 0, tax := 0, total := 0 }

/-- `s.trim()`: strip leading and trailing whitespace.  (Defined
structurally over the character list so that it evaluates by `decide`;
`Char.isWhitespace` stands for the JS whitespace class.) -/
def jsTrim (s : String) : String :=
  String.mk (((s.toList.dropWhile Char.isWhitespace).reverse.dropWhile Char.isWhitespace).reverse)

/-- `trimmed.replace(/,/g, "")`. -/
def stripCommas (s : String) : String :=
  String.mk (s.toList.filter (fun c => c ≠ ','))

/-- Matcher for the tail of `/^-?\d*(\.\d{0,2})?$/` after the optional sign:
digits, then optionally a dot followed by at most two digits. -/
def intThenFrac : List Char → Bool
  | [] => true
  | c :: rest =>
    if c = '.' then decide (rest.length ≤ 2) && rest.all Char.isDigit
    else c.isDigit && intThenFrac rest

/-- The regex test `/^-?\d*(\.\d{0,2})?$/.test(s)` from `parseMoney`. -/
def moneyPattern (s : String) : Bool :=
  match s.toList with
  | '-' :: rest => intThenFrac rest
  | l => intThenFrac l

/-- `parseMoney` from the checkout page, parameterised by the platform
string-to-number coercion `toNum` (`Number(normalized)`, with `none` for a
non-finite result).  Both the regex-mismatch branch and the regex-match
branch perform the same coercion and rounding; they are transcribed here as
the same `match`, guarded by the source's condition. -/
def parseMoney (toNum : String → Option ℚ) (input : String) : Option ℚ :=
  if jsTrim input = "" then none
  else
    if (moneyPattern (stripCommas (jsTrim input)) = false)
        ∨ stripCommas (jsTrim input) = "-" ∨ stripCommas (jsTrim input) = "." ∨ stripCommas (jsTrim input) = "-." then
      match toNum (stripCommas (jsTrim input)) with
      | some q => some (jsRound2 q)
      | none => none
    else
      match toNum (stripCommas (jsTrim input)) with
      | some q => some (jsRound2 q)
      | none => none

/-- Branch-free reference parser, following the spec's words: trim; if
empty, no value; strip commas; coerce; if finite, round to 2 decimals,
otherwise no value. -/
def parseMoneySpec (toNum : String → Option ℚ) (input : String) : Option ℚ :=
  if jsTrim input = "" then none
  else
    match toNum (stripCommas (jsTrim input)) with
    | some q => some (jsRound2 q)
    | none => none

/-!
Cart storage.  `localStorage` text content is modelled by its JSON parse:
`Option JsValue` where `none` covers an absent key, an empty string, and
text that is not valid JSON (all of which `readCartItems` maps to `[]`).
`writeCartItems` stores `JSON.stringify(items)`; `encodeCartItem` is the
JSON value that text parses back to — `JSON.stringify` omits properties
whose value is `undefined`, so the optional `sku` / `taxRate` fields appear
only when present.
-/

/-- The JSON value `JSON.parse(JSON.stringify(item))` for one cart item,
with property order as in the object literal built by `sanitizeCartItem`. -/
def encodeCartItem (it : CartItem) : JsValue :=
  .obj ([("productId", .num (some it.productId)),
         ("name", .str it.name),
         ("quantity", .num (some it.quantity)),
         ("unitPrice", .num (some it.unitPrice))]
    ++ (match it.sku with
        | some s => [("sku", JsValue.str s)]
        | none => [])
    ++ (match it.taxRate with
        | some r => [("taxRate", JsValue.num (some r))]
        | none => []))

/-- `writeCartItems` (browser path): serializes the given sequence verbatim
under the cart key.  The stored text, viewed through its JSON parse, is the
array of encoded items. -/
def writeCartItems (items : List CartItem) : Option JsValue :=
  some (.arr (items.map encodeCartItem))

/-- `readCartItems` (browser path): absent/unparsable content reads as `[]`;
a parsed value that is not an array reads as `[]`; otherwise each element is
sanitized and the failures are dropped. -/
def readCartItems (jsNum : JsValue → Option ℚ) (stored : Option JsValue) : List CartItem :=
  match stored with
  | none => []
  | some (.arr elems) => elems.filterMap (sanitizeCartItem jsNum)
  | some _ => []

/-- The sanitization invariant the spec states for stored cart items.
`unitPrice` finiteness, `name` being text and `sku`/`taxRate` being
absent-or-text / absent-or-finite hold by the typing of `CartItem` in this
model. -/
def goodCartItem (it : CartItem) : Prop :=
  it.productId.den = 1 ∧ 0 < it.productId ∧ 0 < it.quantity

instance (it : CartItem) : Decidable (goodCartItem it) := by
  unfold goodCartItem; infer_instance

/-!  Checkout page: derived values and the submission flow. -/

/-- `computedChange` from the checkout page: zero when no amount parses,
otherwise the positive difference rounded, floored at zero. -/
def computedChange (total : ℚ) (parsed : Option ℚ) : ℚ :=
  match parsed with
  | none => 0
  | some p => if 0 < p - total then roundCurrency (p - total) else 0

/-- `shortage` from the checkout page: zero when no amount parses or the
parsed amount meets the total, otherwise the rounded positive difference. -/
def shortage (total : ℚ) (parsed : Option ℚ) : ℚ :=
  match parsed with
  | none => 0
  | some p => if total ≤ p then 0 else roundCurrency (total - p)

/-- Digits of `n/100` with exactly two decimals, for `n ≥ 0`. -/
def fixed2Digits (n : ℤ) : String :=
  toString (n / 100) ++ "." ++ (if n % 100 < 10 then "0" else "") ++ toString (n % 100)

/-- `q.toFixed(2)`: per ECMAScript, a leading sign for negatives, then the
integer `n` nearest to `|q|·100` (ties toward the larger `n`) printed with
two decimals. -/
def toFixed2 (q : ℚ) : String :=
  if q < 0 then "-" ++ fixed2Digits (round ((-q) * 100))
  else fixed2Digits (round (q * 100))

/-- Payment methods offered by the page. -/
inductive PaymentMethod where
  | cash | card | qr | other
deriving DecidableEq, Repr

/-- One wire item of the order-creation request: only the product identifier
and quantity are sent; no price field exists. -/
structure OrderCreateItem where
  product_id : ℚ
  quantity : ℚ
deriving DecidableEq, Repr

/-- One wire payment of the order-creation request.  The optional
`transaction_id` of the TS interface is never assigned by the page and hence
never serialized; it is omitted from the model. -/
structure OrderCreatePayment where
  method : PaymentMethod
  amount : String
deriving DecidableEq, Repr

/-- The order-creation request body; `memo = none` means the field is absent
from the JSON. -/
structure OrderCreateRequest where
  items : List OrderCreateItem
  payments : List OrderCreatePayment
  memo : Option String
deriving DecidableEq, Repr

/-- The success response shape of `POST /orders`. -/
structure OrderRead where
  order_no : String
  total : String
  paid_amount : String
  change_amount : String
deriving DecidableEq, Repr

/-- Truthiness of the stored access token: `if (!token)` rejects both an
absent token and an empty-string token. -/
def tokenTruthy : Option String → Bool
  | none => false
  | some t => decide (t ≠ "")

/-- Local state of the checkout page that the submission handler reads or
writes. -/
structure PageState where
  cartItems : List CartItem
  paymentMethod : PaymentMethod
  receivedAmount : String
  memo : String
  isSubmitting : Bool
  errorMessage : Option String
  orderResult : Option OrderRead
deriving DecidableEq, Repr

/-- Outcome of the local (pre-network) part of `handleSubmit`. -/
inductive SubmitOutcome where
  | rejected : String → SubmitOutcome
  | issueRequest : OrderCreateRequest → SubmitOutcome
deriving DecidableEq, Repr

/-- The validation cascade and payload construction of `handleSubmit`,
in source order: empty cart, then missing token, then unparsable received
amount, then non-positive amount; otherwise the `POST /orders` payload. -/
def handleSubmitLocal (strToNum : String → Option ℚ) (token : Option String)
    (st : PageState) : SubmitOutcome :=
  if st.cartItems = [] then .rejected "カートに商品がありません。"
  else if tokenTruthy token = false then
    .rejected "認証情報が見つかりません。ログインし直してください。"
  else
    match parseMoney strToNum st.receivedAmount with
    | none => .rejected "受領金額を入力してください。"
    | some p =>
      if p ≤ 0 then .rejected "受領金額は0より大きい値にしてください。"
      else
        .issueRequest
          { items := st.cartItems.map (fun it =>
              { product_id := it.productId, quantity := it.quantity })
            payments := [{ method := st.paymentMethod, amount := toFixed2 p }]
            memo := if jsTrim st.memo = "" then none else some (jsTrim st.memo) }

/-- Auth token store plus page state, for stating what the handler leaves
unchanged. -/
structure World where
  token : Option String
  page : PageState
deriving DecidableEq, Repr

/-- The synchronous phase of `handleSubmit`, up to (and including) issuing
the network request: first clears the previous error message and order
result, then runs the validation cascade; a local rejection records its
message and returns with no request issued; otherwise the in-progress flag
is set and the request is issued. -/
def handleSubmitStep (strToNum : String → Option ℚ) (w : World) :
    World × Option OrderCreateRequest :=
  match handleSubmitLocal strToNum w.token
      { w.page with errorMessage := none, orderResult := none } with
  | .rejected msg =>
    ({ w with page := { w.page with errorMessage := some msg, orderResult := none } }, none)
  | .issueRequest payload =>
    ({ w with page :=
        { w.page with
          errorMessage := none
          orderResult := none
          isSubmitting := true } }, some payload)

/-!  HTTP request wrapper (`apiFetch`). -/

/-- A request body: a string (pre-serialized JSON) or some non-string body. -/
inductive ReqBody where
  | str : String → ReqBody
  | otherBody : ReqBody
deriving DecidableEq

/-- The options of `apiFetch` that affect header construction.
`auth = none` models the option being omitted (defaulting to `true`). -/
structure FetchOptions where
  auth : Option Bool
  headers : List (String × String)
  body : Option ReqBody

/-- Lowercasing of a header name, defined structurally over the character
list (so that it evaluates by `decide`). -/
def lowerName (s : String) : String := String.mk (s.toList.map Char.toLower)

/-- Case-insensitive header-name equality, as in the `Headers` class. -/
def keyEq (a b : String) : Bool := lowerName a = lowerName b

/-- `Headers.get`: the value of the first entry with a matching name. -/
def hget : List (String × String) → String → Option String
  | [], _ => none
  | p :: rest, k => if keyEq p.1 k then some p.2 else hget rest k

/-- `Headers.has`. -/
def hhas (hs : List (String × String)) (k : String) : Bool :=
  (hget hs k).isSome

/-- `Headers.set`: replace the matching entry, or append. -/
def hset : List (String × String) → String → String → List (String × String)
  | [], k, v => [(k, v)]
  | p :: rest, k, v => if keyEq p.1 k then (p.1, v) :: rest else p :: hset rest k v

/-- The `Authorization` step of `apiFetch`'s header construction: starting
from the caller's headers, if `auth` (default `true`) and the token store
yields a truthy token, set `Authorization: Bearer <token>`. -/
def authHeaders (token : Option String) (opts : FetchOptions) : List (String × String) :=
  if opts.auth.getD true = true then
    match token with
    | some t => if t ≠ "" then hset opts.headers "Authorization" ("Bearer " ++ t) else opts.headers
    | none => opts.headers
  else opts.headers

/-- Full header construction of `apiFetch`: the `Authorization` step, then,
if the body is a string and no `Content-Type` is present yet, set
`Content-Type: application/json`. -/
def buildHeaders (token : Option String) (opts : FetchOptions) : List (String × String) :=
  if (match opts.body with | some (.str _) => true | _ => false)
      && !(hhas (authHeaders token opts) "Content-Type") then
    hset (authHeaders token opts) "Content-Type" "application/json"
  else authHeaders token opts

/-- The error class `ApiError` thrown by `apiFetch` (the single class used
for both non-success statuses and response-parse failures).  `body` is the
parsed JSON value, the raw text (`.str`), or `null`. -/
structure ApiError where
  status : Nat
  body : JsValue
  message : String

/-- `response.ok`: status in the 200–299 range. -/
def statusOk (status : Nat) : Bool :=
  decide (200 ≤ status) && decide (status ≤ 299)

/-- Response handling of `apiFetch` after the body text has been read,
parameterised by the platform `JSON.parse` (`parseJson s = none` when the
text is not valid JSON).  Non-success: throw `ApiError` with the
opportunistically parsed body (raw text if unparsable, `null` if empty) and
the status line text as message.  Success: empty body resolves to the
no-value sentinel (`none`); otherwise parse, and on parse failure throw
`ApiError` with the raw text and message "Failed to parse response JSON". -/
def apiFetchResponse (parseJson : String → Option JsValue) (status : Nat)
    (statusText : String) (text : String) : Except ApiError (Option JsValue) :=
  if statusOk status = false then
    .error { status := status
             body :=
               if text = "" then .null
               else
                 match parseJson text with
                 | some j => j
                 | none => .str text
             message := statusText }
  else if text = "" then .ok none
  else
    match parseJson text with
    | some j => .ok (some j)
    | none => .error { status := status, body := .str text,
                       message := "Failed to parse response JSON" }

/-- What the checkout page's `catch` block can observe: an `ApiError`
(`instanceof ApiError` true) or anything else. -/
inductive CaughtError where
  | api : ApiError → CaughtError
  | otherFailure : CaughtError

/-- `typeof error.body === "string" ? error.body : (error.body)?.detail`. -/
def extractDetail (b : JsValue) : JsValue :=
  match b with
  | .str s => .str s
  | b' => getField b' "detail"

/-- The message the checkout page stores in its error panel for a caught
submission failure: for an `ApiError`, `detail ?? "会計処理に失敗しました。"`;
for anything else the generic unexpected-error message. -/
def errorPanelMessage : CaughtError → JsValue
  | .api e =>
    if isNullish (extractDetail e.body) then .str "会計処理に失敗しました。"
    else extractDetail e.body
  | .otherFailure => .str "予期せぬエラーが発生しました。"

/-!  Reference definitions taken from the spec's words (for refinement
claims), and concrete stand-ins for platform primitives used by witnesses. -/

/-- Rounding to 2 decimals as the spec words it: multiply by 100, add a
machine-epsilon-scale nudge (`100 · 2⁻⁵²`, the scale the source's
`(value + Number.EPSILON) * 100` produces), round to the nearest integer,
divide by 100. -/
def roundTo2Spec (v : ℚ) : ℚ :=
  (round (v * 100 + 100 * jsEpsilon) : ℤ) / 100

/-- One step of the fold described by the spec: round the line subtotal and
line tax to 2 decimals, then round each running field after adding that
line's contribution. -/
def totalsStepSpec (acc : CartTotals) (item : CartItem) : CartTotals :=
  { subtotal := roundTo2Spec (acc.subtotal + roundTo2Spec (item.unitPrice * item.quantity))
    tax := roundTo2Spec (acc.tax +
      roundTo2Spec (roundTo2Spec (item.unitPrice * item.quantity) * ((item.taxRate.getD 0) / 100)))
    total := roundTo2Spec (acc.total +
      (roundTo2Spec (item.unitPrice * item.quantity) +
        roundTo2Spec (roundTo2Spec (item.unitPrice * item.quantity) * ((item.taxRate.getD 0) / 100)))) }

/-- The left fold described by the spec, by explicit recursion over the item
list. -/
def totalsFoldSpec (acc : CartTotals) : List CartItem → CartTotals
  | [] => acc
  | item :: rest => totalsFoldSpec (totalsStepSpec acc item) rest

/-- Concrete stand-in for the platform `Number(...)` coercion, used to
instantiate witnesses: the identity on numbers, `0` on `null`, `0`/`1` on
booleans, non-finite elsewhere.  (Agrees with `Number` on every value the
witnesses feed it.) -/
def jsNumberRef : JsValue → Option ℚ
  | .num q => q
  | .null => some 0
  | .bool b => some (if b then 1 else 0)
  | _ => none

/-- Concrete stand-in for the platform string-to-number coercion, used to
instantiate witnesses; it agrees with `Number(...)` on the strings the
witnesses feed it. -/
def strToNumRef (s : String) : Option ℚ :=
  if s = "1100" then some 1100 else if s = "0" then some 0 else none

/-- Cart line used by the C5/C6 witnesses: the spec's round-trip example
item (productId 1, quantity 2, unitPrice 500, taxRate 10). -/
def exampleItem : CartItem :=
  { productId := 1, name := "コーヒー", quantity := 2, unitPrice := 500,
    sku := none, taxRate := some 10 }

/-- Page state used by the C5 witness. -/
def exampleState : PageState :=
  { cartItems := [exampleItem], paymentMethod := .cash, receivedAmount := "1100",
    memo := " レシート ", isSubmitting := false, errorMessage := none, orderResult := none }

/-- The page state after a local validation rejection: only the error
message (set to the check's message) and the previous order result
(cleared) change; cart, token, received amount, memo and the
submission-in-progress flag are untouched. -/
def rejectedWorld (w : World) (msg : String) : World :=
  { w with page := { w.page with errorMessage := some msg, orderResult := none } }

/-- World with an empty cart (first check fires). -/
def worldEmptyCart : World :=
  { token := some "token-1"
    page := { exampleState with cartItems := [] } }

/-- World with items but no stored token (second check fires). -/
def worldNoToken : World :=
  { token := none, page := exampleState }

/-- World with items and token but unparsable received amount (third check
fires). -/
def worldNoParse : World :=
  { token := some "token-1"
    page := { exampleState with receivedAmount := "" } }

/-- World with items and token but a zero received amount (fourth check
fires). -/
def worldZeroAmount : World :=
  { token := some "token-1"
    page := { exampleState with receivedAmount := "0" } }

/-- Fetch options used by the C8 witness: `auth` omitted (default true), one
caller header, no body. -/
def exampleOpts : FetchOptions :=
  { auth := none, headers := [("X-Trace", "abc")], body := none }

/-- Fetch options used by the C8 witness for the `auth: false` case. -/
def exampleOptsNoAuth : FetchOptions :=
  { auth := some false, headers := [("X-Trace", "abc")], body := none }

/-- Item list used by the C10 witness: one full item (text SKU, tax rate)
and one minimal item (empty name, zero price, no SKU, no tax rate). -/
def exampleStoredItems : List CartItem :=
  [{ productId := 1, name := "コーヒー", quantity := 2, unitPrice := 500,
     sku := some "SKU-1", taxRate := some 10 },
   { productId := 2, name := "", quantity := 1, unitPrice := 0,
     sku := none, taxRate := none }]

/-!  Helper lemmas. -/

theorem roundCurrency_eq_roundTo2Spec (v : ℚ) : roundCurrency v = roundTo2Spec v := by
  unfold roundCurrency roundTo2Spec
  have h : (v + jsEpsilon) * 100 = v * 100 + 100 * jsEpsilon := by ring
  rw [h]

theorem calcStep_eq_totalsStepSpec (acc : CartTotals) (item : CartItem) :
    calcStep acc item = totalsStepSpec acc item := by
  unfold calcStep totalsStepSpec
  simp only [roundCurrency_eq_roundTo2Spec, add_assoc]

theorem foldl_calcStep_eq (items : List CartItem) :
    ∀ acc, items.foldl calcStep acc = totalsFoldSpec acc items := by
  induction items with
  | nil => intro acc; rfl
  | cons item rest ih =>
    intro acc
    rw [List.foldl_cons, totalsFoldSpec, calcStep_eq_totalsStepSpec, ih]

/-- Claim C2: for every list of cart items, `calculateCartTotals` equals the
left fold that starts from the all-zero accumulator and, per item, rounds
the line subtotal (`unitPrice × quantity`) and the line tax
(`lineSubtotal × (taxRate-or-0 / 100)`) to 2 decimals, then rounds each of
the running subtotal, tax and total to 2 decimals after adding that line —
per-step rounding, with rounding to 2 decimals meaning: multiply by 100, add
a machine-epsilon-scale nudge, round to the nearest integer, divide by
100. -/
theorem claim2_totals_fold (items : List CartItem) :
    calculateCartTotals items = totalsFoldSpec { subtotal := 0, tax := 0, total := 0 } items :=
  foldl_calcStep_eq items { subtotal := 0, tax := 0, total := 0 }

/-- Claim C3: for every numeric-coercion primitive and every input string,
`parseMoney` returns the same result as the branch-free reference (trim; if
empty, no value; strip commas; coerce; round to 2 decimals if finite,
otherwise no value): the regex-match branch and the fallback branch are
behaviourally equivalent and the pattern check is inert. -/
theorem claim3_parseMoney_pattern_inert (toNum : String → Option ℚ) (input : String) :
    parseMoney toNum input = parseMoneySpec toNum input := by
  unfold parseMoney parseMoneySpec
  by_cases h : jsTrim input = ""
  · simp [h]
  · simp only [h, if_false]
    split <;> rfl

/-- Claim C7: for every cart total and parse result of the received-amount
text: an unparsable amount yields change 0 and shortage 0; a parsed amount
yields change = the rounded positive difference (floored at 0) and
shortage = 0 when the amount meets the total, otherwise the rounded
positive difference; change and shortage are never both positive. -/
theorem claim7_change_shortage (total : ℚ) (parsed : Option ℚ) :
    (parsed = none → computedChange total parsed = 0 ∧ shortage total parsed = 0)
  ∧ (∀ p, parsed = some p →
      computedChange total parsed = (if 0 < p - total then roundCurrency (p - total) else 0)
      ∧ shortage total parsed = (if total ≤ p then 0 else roundCurrency (total - p)))
  ∧ ¬(0 < computedChange total parsed ∧ 0 < shortage total parsed) := by
  refine ⟨?_, ?_, ?_⟩
  · rintro rfl; exact ⟨rfl, rfl⟩
  · rintro p rfl; exact ⟨rfl, rfl⟩
  · rintro ⟨hc, hs⟩
    match parsed with
    | none => exact absurd hc (by simp [computedChange])
    | some p =>
      simp only [computedChange] at hc
      simp only [shortage] at hs
      by_cases hd : 0 < p - total
      · rw [if_pos (le_of_lt (by linarith : total < p))] at hs
        exact absurd hs (lt_irrefl 0)
      · rw [if_neg hd] at hc
        exact absurd hc (lt_irrefl 0)

/-- Witness for C7, at the spec's example: total 1100, received 1000. -/
theorem claim7_witness :
    computedChange 1100 (some 1000) = (if (0 : ℚ) < 1000 - 1100 then roundCurrency (1000 - 1100) else 0)
  ∧ shortage 1100 (some 1000) = (if (1100 : ℚ) ≤ 1000 then 0 else roundCurrency (1100 - 1000)) :=
  (claim7_change_shortage 1100 (some 1000)).2.1 1000 rfl

/-- Claim C9: a success-range status with an empty body text resolves to the
explicit no-value sentinel, not a thrown error and not an empty structured
object. -/
theorem claim9_empty_body (parseJson : String → Option JsValue) (status : Nat)
    (statusText : String) (hok : statusOk status = true) :
    apiFetchResponse parseJson status statusText "" = .ok none := by
  unfold apiFetchResponse
  simp [hok]

/-- Witness for C9, at a simulated 204 / empty-body response. -/
theorem claim9_witness :
    statusOk 204 = true
  ∧ apiFetchResponse (fun _ => none) 204 "No Content" "" = .ok none :=
  ⟨by decide, claim9_empty_body (fun _ => none) 204 "No Content" (by decide)⟩

/-- Claim C4: `sanitizeCartItem` yields no value unless the record is a
non-null object whose `productId` (from `productId` or `product_id`,
coerced) is a positive integer, whose `quantity` coerces to a finite number
strictly greater than 0, and whose `unitPrice` (from `unitPrice`,
`unit_price` or `price`, in that priority order) coerces to a finite number;
on success, `name` is the stored text or `""`, `sku` is kept only if already
text, and `taxRate` is kept only if convertible to a finite number. -/
theorem claim4_sanitize_characterization (jsNum : JsValue → Option ℚ) (raw : JsValue)
    (it : CartItem) (h : sanitizeCartItem jsNum raw = some it) :
    objectLike raw = true
  ∧ (∃ p, jsNum (nullish (getField raw "productId") (getField raw "product_id")) = some p
      ∧ p.den = 1 ∧ 0 < p ∧ it.productId = p)
  ∧ (∃ q, jsNum (getField raw "quantity") = some q ∧ 0 < q ∧ it.quantity = q)
  ∧ (∃ u, jsNum (nullish (getField raw "unitPrice")
        (nullish (getField raw "unit_price") (getField raw "price"))) = some u
      ∧ it.unitPrice = u)
  ∧ it.name = strOrEmpty (nullish (getField raw "name") (getField raw "productName"))
  ∧ it.sku = strOpt (nullish (getField raw "sku") (getField raw "productSku"))
  ∧ it.taxRate = (if isUndefined (nullish (getField raw "taxRate") (getField raw "tax_rate")) = false
        ∧ (jsNum (nullish (getField raw "taxRate") (getField raw "tax_rate"))).isSome = true
      then jsNum (nullish (getField raw "taxRate") (getField raw "tax_rate"))
      else none) := by
  unfold sanitizeCartItem at h
  split at h
  · exact absurd h (by simp)
  · rename_i hobj
    refine ⟨by simpa using hobj, ?_⟩
    split at h
    · exact absurd h (by simp)
    · rename_i p hp
      split at h
      · exact absurd h (by simp)
      · rename_i hpcond
        push_neg at hpcond
        split at h
        · exact absurd h (by simp)
        · rename_i q hq
          split at h
          · exact absurd h (by simp)
          · rename_i hqcond
            split at h
            · exact absurd h (by simp)
            · rename_i u hu
              injection h with h
              subst h
              push_neg at hqcond
              exact ⟨⟨p, hp, hpcond.1, hpcond.2, rfl⟩,
                ⟨q, hq, hqcond, rfl⟩,
                ⟨u, hu, rfl⟩, rfl, rfl, rfl⟩

/-- Witness for C4, at the spec's alternate-field-name example
`{product_id: 7, quantity: 2, unit_price: 3.5, tax_rate: 10}`. -/
theorem claim4_witness :
    sanitizeCartItem jsNumberRef
      (.obj [("product_id", .num (some 7)), ("quantity", .num (some 2)),
             ("unit_price", .num (some (mkRat 7 2))), ("tax_rate", .num (some 10))])
      = some { productId := 7, name := "", quantity := 2, unitPrice := mkRat 7 2,
               sku := none, taxRate := some 10 }
  ∧ objectLike (JsValue.obj [("product_id", .num (some 7)), ("quantity", .num (some 2)),
        ("unit_price", .num (some (mkRat 7 2))), ("tax_rate", .num (some 10))]) = true :=
  ⟨by decide,
   (claim4_sanitize_characterization jsNumberRef
      (.obj [("product_id", .num (some 7)), ("quantity", .num (some 2)),
             ("unit_price", .num (some (mkRat 7 2))), ("tax_rate", .num (some 10))])
      { productId := 7, name := "", quantity := 2, unitPrice := mkRat 7 2,
        sku := none, taxRate := some 10 }
      (by decide)).1⟩

theorem jsRound2_eval_1100 : jsRound2 1100 = 1100 := by
  unfold jsRound2
  rw [show round ((1100 : ℚ) * 100) = (110000 : ℤ) from by norm_num]
  norm_num

theorem jsRound2_eval_0 : jsRound2 0 = 0 := by
  unfold jsRound2
  rw [show round ((0 : ℚ) * 100) = (0 : ℤ) from by norm_num]
  norm_num

theorem parseMoney_ref_1100 : parseMoney strToNumRef "1100" = some 1100 := by
  unfold parseMoney
  rw [if_neg (by decide), if_neg (by decide),
    show strToNumRef (stripCommas (jsTrim "1100")) = some 1100 from by decide]
  show some (jsRound2 1100) = some 1100
  rw [jsRound2_eval_1100]

theorem parseMoney_ref_0 : parseMoney strToNumRef "0" = some 0 := by
  unfold parseMoney
  rw [if_neg (by decide), if_neg (by decide),
    show strToNumRef (stripCommas (jsTrim "0")) = some 0 from by decide]
  show some (jsRound2 0) = some 0
  rw [jsRound2_eval_0]

theorem toFixed2_eval_1100 : toFixed2 1100 = "1100.00" := by
  unfold toFixed2
  rw [if_neg (by decide : ¬((1100 : ℚ) < 0)),
    show round ((1100 : ℚ) * 100) = (110000 : ℤ) from by norm_num]
  decide

/-- Claim C5: when all four local validations pass, the request body built
for `POST /orders` contains exactly the cart items as
`{product_id, quantity}` pairs in cart order (no price field), a single
payment entry with the selected method and the parsed amount as
fixed-2-decimal text, and a memo field present exactly when the memo text is
non-blank after trimming (holding the trimmed text). -/
theorem claim5_payload (strToNum : String → Option ℚ) (token : Option String)
    (st : PageState) (p : ℚ)
    (h1 : st.cartItems ≠ []) (h2 : tokenTruthy token = true)
    (h3 : parseMoney strToNum st.receivedAmount = some p) (h4 : 0 < p) :
    handleSubmitLocal strToNum token st = .issueRequest
      { items := st.cartItems.map (fun it =>
          { product_id := it.productId, quantity := it.quantity })
        payments := [{ method := st.paymentMethod, amount := toFixed2 p }]
        memo := if jsTrim st.memo = "" then none else some (jsTrim st.memo) } := by
  unfold handleSubmitLocal
  rw [if_neg h1, if_neg (by rw [h2]; exact fun hcontra => Bool.noConfusion hcontra), h3]
  simp only []
  rw [if_neg (not_le.mpr h4)]

/-- Witness for C5: non-empty cart, token present, received amount "1100". -/
theorem claim5_witness :
    exampleState.cartItems ≠ []
  ∧ tokenTruthy (some "token-1") = true
  ∧ parseMoney strToNumRef exampleState.receivedAmount = some 1100
  ∧ (0 : ℚ) < 1100
  ∧ handleSubmitLocal strToNumRef (some "token-1") exampleState = .issueRequest
      { items := exampleState.cartItems.map (fun it =>
          { product_id := it.productId, quantity := it.quantity })
        payments := [{ method := exampleState.paymentMethod, amount := toFixed2 1100 }]
        memo := if jsTrim exampleState.memo = "" then none else some (jsTrim exampleState.memo) } :=
  ⟨by decide, by decide, parseMoney_ref_1100, by decide,
    claim5_payload strToNumRef (some "token-1") exampleState 1100
      (by decide) (by decide) parseMoney_ref_1100 (by decide)⟩

/-- Claim C6: the submission flow checks its local validations strictly in
the order empty cart, missing token, unparsable amount, non-positive
amount; the first failing check stores its specific message and returns
with no network request issued and the cart, the stored token and the
submission-in-progress flag unchanged. -/
theorem claim6_validation_order (strToNum : String → Option ℚ) (w : World) :
    (∀ msg, (rejectedWorld w msg).token = w.token
      ∧ (rejectedWorld w msg).page.cartItems = w.page.cartItems
      ∧ (rejectedWorld w msg).page.isSubmitting = w.page.isSubmitting)
  ∧ (w.page.cartItems = [] →
      handleSubmitStep strToNum w = (rejectedWorld w "カートに商品がありません。", none))
  ∧ (w.page.cartItems ≠ [] → tokenTruthy w.token = false →
      handleSubmitStep strToNum w
        = (rejectedWorld w "認証情報が見つかりません。ログインし直してください。", none))
  ∧ (w.page.cartItems ≠ [] → tokenTruthy w.token = true →
      parseMoney strToNum w.page.receivedAmount = none →
      handleSubmitStep strToNum w = (rejectedWorld w "受領金額を入力してください。", none))
  ∧ (∀ p, w.page.cartItems ≠ [] → tokenTruthy w.token = true →
      parseMoney strToNum w.page.receivedAmount = some p → p ≤ 0 →
      handleSubmitStep strToNum w
        = (rejectedWorld w "受領金額は0より大きい値にしてください。", none)) := by
  refine ⟨fun msg => ⟨rfl, rfl, rfl⟩, ?_, ?_, ?_, ?_⟩
  · intro hempty
    unfold handleSubmitStep handleSubmitLocal rejectedWorld
    rw [if_pos hempty]
  · intro hne htok
    unfold handleSubmitStep handleSubmitLocal rejectedWorld
    rw [if_neg hne, if_pos htok]
  · intro hne htok hparse
    unfold handleSubmitStep handleSubmitLocal rejectedWorld
    rw [if_neg hne, if_neg (by rw [htok]; exact fun hcontra => Bool.noConfusion hcontra), hparse]
  · intro p hne htok hparse hp
    unfold handleSubmitStep handleSubmitLocal rejectedWorld
    rw [if_neg hne, if_neg (by rw [htok]; exact fun hcontra => Bool.noConfusion hcontra), hparse]
    simp only []
    rw [if_pos hp]

/-- Witness for C6: one concrete world per failing check. -/
theorem claim6_witness :
    handleSubmitStep strToNumRef worldEmptyCart
      = (rejectedWorld worldEmptyCart "カートに商品がありません。", none)
  ∧ handleSubmitStep strToNumRef worldNoToken
      = (rejectedWorld worldNoToken "認証情報が見つかりません。ログインし直してください。", none)
  ∧ handleSubmitStep strToNumRef worldNoParse
      = (rejectedWorld worldNoParse "受領金額を入力してください。", none)
  ∧ handleSubmitStep strToNumRef worldZeroAmount
      = (rejectedWorld worldZeroAmount "受領金額は0より大きい値にしてください。", none) :=
  ⟨(claim6_validation_order strToNumRef worldEmptyCart).2.1 rfl,
   (claim6_validation_order strToNumRef worldNoToken).2.2.1 (by decide) rfl,
   (claim6_validation_order strToNumRef worldNoParse).2.2.2.1 (by decide) rfl (by decide),
   (claim6_validation_order strToNumRef worldZeroAmount).2.2.2.2 0 (by decide) rfl
     parseMoney_ref_0 le_rfl⟩

theorem keyEq_true_iff {a b : String} : keyEq a b = true ↔ lowerName a = lowerName b := by
  unfold keyEq
  exact decide_eq_true_iff

theorem keyEq_false_iff {a b : String} : keyEq a b = false ↔ lowerName a ≠ lowerName b := by
  unfold keyEq
  exact decide_eq_false_iff_not

theorem keyEq_symm (a b : String) : keyEq a b = keyEq b a := by
  unfold keyEq
  exact decide_eq_decide.mpr eq_comm

theorem hget_hset_self (hs : List (String × String)) (k v : String) :
    hget (hset hs k v) k = some v := by
  induction hs with
  | nil => simp [hset, hget, keyEq]
  | cons p rest ih =>
    by_cases hc : keyEq p.1 k = true
    · simp [hset, hget, hc]
    · simp [hset, hget, hc, ih]

theorem hget_hset_ne (hs : List (String × String)) (k k' v : String)
    (h : keyEq k' k = false) : hget (hset hs k v) k' = hget hs k' := by
  have hlow : lowerName k' ≠ lowerName k := keyEq_false_iff.mp h
  induction hs with
  | nil =>
    have hkk : keyEq k k' = false := keyEq_false_iff.mpr (fun e => hlow e.symm)
    simp [hset, hget, hkk]
  | cons p rest ih =>
    by_cases hc : keyEq p.1 k = true
    · have hpk : keyEq p.1 k' = false :=
        keyEq_false_iff.mpr (fun e => hlow (e.symm.trans (keyEq_true_iff.mp hc)))
      simp [hset, hget, hc, hpk]
    · simp [hset, hget, hc, ih]

theorem hget_congr (hs : List (String × String)) (k k' : String)
    (h : keyEq k k' = true) : hget hs k = hget hs k' := by
  induction hs with
  | nil => rfl
  | cons p rest ih =>
    unfold hget
    rw [show keyEq p.1 k = keyEq p.1 k' from by
      unfold keyEq
      rw [keyEq_true_iff.mp h]]
    split
    · rfl
    · exact ih

theorem authHeaders_other (token : Option String) (opts : FetchOptions) (k : String)
    (hk : keyEq k "Authorization" = false) :
    hget (authHeaders token opts) k = hget opts.headers k := by
  unfold authHeaders
  split
  · match token with
    | none => rfl
    | some t =>
      show hget (if t ≠ "" then hset opts.headers "Authorization" ("Bearer " ++ t)
          else opts.headers) k = hget opts.headers k
      by_cases ht : t ≠ ""
      · rw [if_pos ht]
        exact hget_hset_ne _ _ _ _ hk
      · rw [if_neg ht]
  · rfl

/-- Claim C8: `apiFetch` sets `Authorization: Bearer <token>` if and only if
the `auth` option is true (its default) and the token store yields a truthy
token; with `auth` explicitly false the header is left exactly as the caller
supplied it (omitted when the caller did not supply one) even when a token
is present; caller-supplied headers other than `Authorization` keep their
values. -/
theorem claim8_auth_header (token : Option String) (opts : FetchOptions) :
    (∀ t, token = some t → t ≠ "" → opts.auth ≠ some false →
      hget (buildHeaders token opts) "Authorization" = some ("Bearer " ++ t))
  ∧ (opts.auth = some false →
      hget (buildHeaders token opts) "Authorization" = hget opts.headers "Authorization")
  ∧ (token = none ∨ token = some "" →
      hget (buildHeaders token opts) "Authorization" = hget opts.headers "Authorization")
  ∧ (∀ k v, keyEq k "Authorization" = false → hget opts.headers k = some v →
      hget (buildHeaders token opts) k = some v) := by
  have hAuthCt : keyEq "Authorization" "Content-Type" = false := by decide
  refine ⟨?_, ?_, ?_, ?_⟩
  · rintro t rfl ht hne
    have hauth : opts.auth.getD true = true := by
      match hb : opts.auth with
      | none => rfl
      | some true => rfl
      | some false => exact absurd hb hne
    have hA : authHeaders (some t) opts = hset opts.headers "Authorization" ("Bearer " ++ t) := by
      unfold authHeaders
      rw [if_pos hauth]
      show (if t ≠ "" then hset opts.headers "Authorization" ("Bearer " ++ t)
          else opts.headers) = _
      rw [if_pos ht]
    unfold buildHeaders
    rw [hA]
    split
    · rw [hget_hset_ne _ _ _ _ hAuthCt]
      exact hget_hset_self _ _ _
    · exact hget_hset_self _ _ _
  · intro hfalse
    have hA : authHeaders token opts = opts.headers := by
      unfold authHeaders
      rw [hfalse]
      simp
    unfold buildHeaders
    rw [hA]
    split
    · exact hget_hset_ne _ _ _ _ hAuthCt
    · rfl
  · intro htok
    have hA : authHeaders token opts = opts.headers := by
      unfold authHeaders
      rcases htok with rfl | rfl
      · split <;> rfl
      · split
        · simp
        · rfl
    unfold buildHeaders
    rw [hA]
    split
    · exact hget_hset_ne _ _ _ _ hAuthCt
    · rfl
  · intro k v hk hv
    have hgA : hget (authHeaders token opts) k = hget opts.headers k :=
      authHeaders_other token opts k hk
    unfold buildHeaders
    split
    · rename_i hcond
      by_cases hkc : keyEq k "Content-Type" = true
      · exfalso
        have h1 : hget (authHeaders token opts) "Content-Type" = some v := by
          rw [hget_congr _ _ _ ((keyEq_symm "Content-Type" k).trans hkc), hgA]
          exact hv
        have h2 : hhas (authHeaders token opts) "Content-Type" = true := by
          simp [hhas, h1]
        rw [h2] at hcond
        simp at hcond
      · have hkc' : keyEq k "Content-Type" = false := by
          simpa using hkc
        rw [hget_hset_ne _ _ _ _ hkc', hgA]
        exact hv
    · rw [hgA]
      exact hv

/-- Witness for C8: with the default `auth` and token "tok" the header is
set; with `auth: false` it stays as the caller supplied (here: absent); the
caller's other header keeps its value. -/
theorem claim8_witness :
    hget (buildHeaders (some "tok") exampleOpts) "Authorization" = some ("Bearer " ++ "tok")
  ∧ hget (buildHeaders (some "tok") exampleOptsNoAuth) "Authorization"
      = hget exampleOptsNoAuth.headers "Authorization"
  ∧ hget (buildHeaders (some "tok") exampleOpts) "X-Trace" = some "abc" :=
  ⟨(claim8_auth_header (some "tok") exampleOpts).1 "tok" rfl (by decide) (by decide),
   (claim8_auth_header (some "tok") exampleOptsNoAuth).2.1 rfl,
   (claim8_auth_header (some "tok") exampleOpts).2.2.2 "X-Trace" "abc" (by decide) (by decide)⟩

theorem sanitizeCartItem_encode (jsNum : JsValue → Option ℚ)
    (hid : ∀ q, jsNum (.num q) = q) (it : CartItem) (hgood : goodCartItem it) :
    sanitizeCartItem jsNum (encodeCartItem it) = some it := by
  obtain ⟨hden, hpos, hqty⟩ := hgood
  obtain ⟨pid, nm, qty, price, sku, tax⟩ := it
  simp only [CartItem.productId] at hden hpos
  simp only [CartItem.quantity] at hqty
  cases sku <;> cases tax <;>
    simp [sanitizeCartItem, encodeCartItem, objectLike, getField, List.find?, nullish,
      isNullish, isUndefined, strOrEmpty, strOpt, hid, hden, not_le.mpr hpos, not_le.mpr hqty]

theorem filterMap_sanitize_encode (jsNum : JsValue → Option ℚ)
    (hid : ∀ q, jsNum (.num q) = q) :
    ∀ items : List CartItem, (∀ it ∈ items, goodCartItem it) →
      (items.map encodeCartItem).filterMap (sanitizeCartItem jsNum) = items := by
  intro items
  induction items with
  | nil => intro _; rfl
  | cons it rest ih =>
    intro hgood
    rw [List.map_cons, List.filterMap_cons,
      sanitizeCartItem_encode jsNum hid it (hgood it (List.mem_cons_self it rest))]
    exact congrArg (it :: ·) (ih fun x hx => hgood x (List.mem_cons_of_mem it hx))

/-- Claim C10: in a browser context, reading the cart immediately after
writing a list whose items all satisfy the sanitization invariant returns a
pointwise-equal list — read-path sanitization drops nothing and changes no
field.  (`jsNum` is the platform `Number` coercion; the code relies only on
its being the identity on numbers.) -/
theorem claim10_storage_roundtrip (jsNum : JsValue → Option ℚ) (items : List CartItem)
    (hid : ∀ q, jsNum (.num q) = q) (hgood : ∀ it ∈ items, goodCartItem it) :
    readCartItems jsNum (writeCartItems items) = items := by
  unfold writeCartItems readCartItems
  exact filterMap_sanitize_encode jsNum hid items hgood

/-- Witness for C10, at `exampleStoredItems` with the concrete `Number`
stand-in. -/
theorem claim10_witness :
    (∀ q, jsNumberRef (.num q) = q)
  ∧ (∀ it ∈ exampleStoredItems, goodCartItem it)
  ∧ readCartItems jsNumberRef (writeCartItems exampleStoredItems) = exampleStoredItems :=
  ⟨fun _ => rfl, by decide,
   claim10_storage_roundtrip jsNumberRef exampleStoredItems (fun _ => rfl) (by decide)⟩

/-- Counterexample to C1 as stated: a success-status response with the
non-JSON body text "not-json" makes `apiFetch` throw the same `ApiError`
class that non-success statuses use (only the message differs), and the
checkout handler's `instanceof ApiError` branch then displays the raw body
text — not the generic unexpected-error message the claim asserts.
(`fun _ => none` stands for `JSON.parse` here; it is evaluated only at
"not-json", where real `JSON.parse` also fails.) -/
theorem claim1_counterexample :
    apiFetchResponse (fun _ => none) 200 "OK" "not-json"
      = .error ⟨200, .str "not-json", "Failed to parse response JSON"⟩
  ∧ errorPanelMessage (.api ⟨200, .str "not-json", "Failed to parse response JSON"⟩)
      = .str "not-json"
  ∧ "not-json" ≠ "予期せぬエラーが発生しました。" :=
  ⟨rfl, rfl, by decide⟩

/-- C1 as amended: a response-parse failure (success status, non-empty body,
JSON parse fails) is thrown as the same `ApiError` type used for
non-success request errors — distinguished only by its message
"Failed to parse response JSON" and its raw-text body — and the checkout
page's handler then shows the raw response body text, not the generic
unexpected-error message. -/
theorem claim1_parse_error_display (parseJson : String → Option JsValue)
    (status : Nat) (statusText text : String)
    (hok : statusOk status = true) (hne : text ≠ "") (hparse : parseJson text = none) :
    apiFetchResponse parseJson status statusText text
      = .error ⟨status, .str text, "Failed to parse response JSON"⟩
  ∧ errorPanelMessage (.api ⟨status, .str text, "Failed to parse response JSON"⟩)
      = .str text := by
  constructor
  · unfold apiFetchResponse
    rw [if_neg (by rw [hok]; exact fun hcontra => Bool.noConfusion hcontra),
      if_neg hne, hparse]
  · rfl

/-- Witness for the amended C1, at a 200 response with body "oops". -/
theorem claim1_witness :
    statusOk 200 = true
  ∧ "oops" ≠ ""
  ∧ (fun (_ : String) => (none : Option JsValue)) "oops" = none
  ∧ (apiFetchResponse (fun _ => none) 200 "OK" "oops"
      = .error ⟨200, .str "oops", "Failed to parse response JSON"⟩
    ∧ errorPanelMessage (.api ⟨200, .str "oops", "Failed to parse response JSON"⟩)
        = .str "oops") :=
  ⟨by decide, by decide, rfl,
   claim1_parse_error_display (fun _ => none) 200 "OK" "oops" (by decide) (by decide) rfl⟩

end PosSpec
